import Mathlib

/-!
Shallow embedding of `scripts/migrate_turso_db_names.py` (liteshow).

The script migrates each tenant database from a slug-based name
(`liteshow-slug`) to an id-based name (`liteshow-id`): it checks existence
of both names on the control plane, creates the new database, copies
schema and rows table by table, updates the tenant record and deletes the
old database.  Remote systems (control-plane HTTP API, libsql data plane,
PostgreSQL catalog) are modelled as explicit environments; the mutating
calls the script issues are recorded as an event trace.
-/

set_option autoImplicit false

namespace Liteshow

/-! ### Data-plane model (libsql source/destination databases)

A row returned by the libsql client behaves like an ordered dictionary:
`row.keys()` lists column names in the order the source returns, and
`row[col]` looks a value up by column name.  We model a row as an ordered
association list from column name to value. -/

abbrev Row := List (String × String)

/-- Looking up `row[col]`: first entry whose key matches, as in a dict.
(The script only looks up keys taken from a row of the same result set,
so the default value is never reached in well-formed runs.) -/
def rowGet (r : Row) (c : String) : String :=
  (((r.find? (fun p => p.1 == c)).map Prod.snd)).getD ""

/-- One table of the source database, as the script observes it through
`sqlite_master`: its name, the rows returned by
`SELECT sql FROM sqlite_master WHERE type=(table) AND name=(t)` (normally a
single CREATE statement), and the rows of `SELECT * FROM t`. -/
structure SourceTable where
  name : String
  schemaRows : List String
  rows : List Row
  deriving Repr, DecidableEq

/-- Column names are derived from the keys of the first fetched row
(`columns = list(data_result.rows[0].keys())` in the script). -/
def tableColumns (t : SourceTable) : List String :=
  match t.rows with
  | [] => []
  | r :: _ => r.map Prod.fst

/-- Statements executed against the destination database by
`copy_turso_data`: the verbatim CREATE statement, and one parameterized
INSERT per row with its bound values. -/
inductive DbEvent where
  | exec (sql : String)
  | insert (sql : String) (values : List String)
  deriving Repr, DecidableEq

/-- The script builds `column_names = ",".join of quoted columns`. -/
def columnNames (cols : List String) : String :=
  String.intercalate "," (cols.map (fun c => "\"" ++ c ++ "\""))

/-- The script builds `placeholders = ",".join of one ? per column`. -/
def placeholders (cols : List String) : String :=
  String.intercalate "," (cols.map (fun _ => "?"))

/-- The parameterized statement
`INSERT INTO table (columns) VALUES (placeholders)` built by the script. -/
def insertSqlFor (table : String) (cols : List String) : String :=
  "INSERT INTO " ++ table ++ " (" ++ columnNames cols ++ ") VALUES (" ++ placeholders cols ++ ")"

/-- Environment for one copy session.  `hasLibsql` models whether the
`libsql_client` import succeeds; `createOk` whether executing a given
CREATE statement on the destination succeeds; `insertOk table i` whether
the insert of row `i` (0-based, in fetch order) of `table` succeeds.  A
failing execute raises in Python; the enclosing `except` then ends the
whole copy. -/
structure DataPlaneEnv where
  hasLibsql : Bool
  createOk : String → Bool
  insertOk : String → Nat → Bool

/-- The inner row loop of `copy_turso_data`.  The Python code slices `rows`
into batches of 100 and inserts each row of each batch individually, so the
net effect is one insert per row in fetch order; `i` is the index of the
next row within this table.  On the first failing insert the exception
aborts the session: no further events, failure result. -/
def insertRowsFrom (env : DataPlaneEnv) (table sql : String) (cols : List String) :
    List Row → Nat → List DbEvent × Bool
  | [], _ => ([], true)
  | r :: rs, i =>
    if env.insertOk table i then
      let rest := insertRowsFrom env table sql cols rs (i + 1)
      (DbEvent.insert sql (cols.map (rowGet r)) :: rest.1, rest.2)
    else ([], false)

/-- One iteration of the table loop of `copy_turso_data`: fetch the schema
rows; if there are none the table is silently skipped (`if
schema_result.rows:` guards the whole body); otherwise execute the CREATE
statement and, if the table has rows, insert them. -/
def copyTable (env : DataPlaneEnv) (t : SourceTable) : List DbEvent × Bool :=
  match t.schemaRows with
  | [] => ([], true)
  | createSql :: _ =>
    if env.createOk createSql then
      match t.rows with
      | [] => ([DbEvent.exec createSql], true)
      | _ =>
        let cols := tableColumns t
        let res := insertRowsFrom env t.name (insertSqlFor t.name cols) cols t.rows 0
        (DbEvent.exec createSql :: res.1, res.2)
    else ([], false)

/-- The table loop: a raised exception in one table (failure result)
aborts the remaining tables; events already applied to the destination
are kept (no rollback). -/
def copyTables (env : DataPlaneEnv) : List SourceTable → List DbEvent × Bool
  | [] => ([], true)
  | t :: ts =>
    let r := copyTable env t
    if r.2 then
      let r2 := copyTables env ts
      (r.1 ++ r2.1, r2.2)
    else (r.1, false)

/-- Embedding of `copy_turso_data`.  `src` is the result of
`SELECT name FROM sqlite_master WHERE type=(table)` on the source, paired
with each table's schema rows and data rows; the script filters out
`sqlite_sequence` before copying.  Returns the destination event trace and
the boolean the function returns (`False` when libsql is missing or any
execute raised). -/
def copy_turso_data (env : DataPlaneEnv) (src : List SourceTable) :
    List DbEvent × Bool :=
  if env.hasLibsql then
    copyTables env (src.filter (fun t => t.name ≠ "sqlite_sequence"))
  else ([], false)

/-- Well-formedness of a source table as a libsql result set delivers it:
a retrievable schema, every row carrying the same column list as the
first row, and distinct column names. -/
def wfTable (t : SourceTable) : Prop :=
  t.schemaRows ≠ [] ∧ (∀ r ∈ t.rows, r.map Prod.fst = tableColumns t) ∧
    (tableColumns t).Nodup

instance (t : SourceTable) : Decidable (wfTable t) := by
  unfold wfTable; infer_instance

/-! ### Control-plane and catalog model -/

/-- Embedding of `check_turso_db_exists`: GET the database on the
control-plane API and report existence exactly when the HTTP status is
200.  Every other status (401, 404, 500, ...) yields `false`. -/
def check_turso_db_exists (status : Nat) : Bool :=
  status == 200

/-- Responses the control plane gives to the two POSTs issued by
`create_turso_db`: the database-creation call (ok ⇒ the Hostname field)
and the token-issuing call (ok ⇒ the jwt field).  `Except.error t` models
a non-ok response with body text `t`, which makes the Python function
raise. -/
structure CreateEnv where
  createResp : Except String String
  tokenResp : Except String String
  deriving Repr

/-- Embedding of `create_turso_db`: returns `(hostname, auth_token)` or
raises with the message the script formats. -/
def create_turso_db (db_name : String) (env : CreateEnv) :
    Except String (String × String) :=
  match env.createResp with
  | Except.error t => Except.error ("Failed to create database " ++ db_name ++ ": " ++ t)
  | Except.ok hostname =>
    match env.tokenResp with
    | Except.error t =>
        Except.error ("Failed to create auth token for " ++ db_name ++ ": " ++ t)
    | Except.ok jwt => Except.ok (hostname, jwt)

/-- Embedding of `delete_turso_db`, which never raises: given the HTTP
status of the DELETE response, it prints a warning exactly when the
response is not ok (status ≥ 400, as `requests` defines `ok`) and the
status is not 404.  Returns `true` when the warning was printed. -/
def delete_turso_db (status : Nat) : Bool :=
  !(status < 400 : Bool) && status != 404

/-- Python truthiness of the `turso_db_url` column: `not old_url` holds
for NULL (`none`) and for the empty string. -/
def pyFalsy : Option String → Bool
  | none => true
  | some s => s.isEmpty

/-- Formatting an optional string the way a Python f-string does. -/
def optStr : Option String → String
  | none => "None"
  | some s => s

/-- One row of the `projects` table as fetched by `get_all_projects`:
`(id, name, slug, turso_db_url, turso_db_token)`. -/
structure Project where
  id : String
  name : String
  slug : String
  tursoDbUrl : Option String
  tursoDbToken : Option String
  deriving Repr, DecidableEq

/-- Remote-call trace of `migrate_project`.  `checkExists` is the
read-only control-plane GET; `dryRunPlan` marks the printed
would-migrate plan of the dry-run branch; the remaining constructors are
the mutating calls: control-plane create, the data-plane copy session
(with its destination statements), the catalog UPDATE and the
control-plane DELETE (`warned` records the non-ok non-404 warning). -/
inductive Event where
  | checkExists (dbName : String)
  | dryRunPlan (oldName newName : String)
  | createCall (dbName : String)
  | copyCall (oldUrl newUrl : String) (dbEvents : List DbEvent)
  | updateCall (projectId newUrl newToken : String)
  | deleteCall (dbName : String) (warned : Bool)
  deriving Repr, DecidableEq

/-- Classifies an event as a mutation of a remote system.  Existence
checks and dry-run prints are read-only. -/
def Event.isMutation : Event → Bool
  | Event.checkExists _ => false
  | Event.dryRunPlan _ _ => false
  | _ => true

/-- The terminal outcomes of `migrate_project`, one constructor per
return point of the Python function, in source order. -/
inductive Outcome where
  /-- Neither database exists and the record has no url: prints
  "Project has no Turso database - skipping" and returns True. -/
  | skippedNoDatabase
  /-- Old missing, new present: prints "project likely already migrated"
  and returns True. -/
  | alreadyMigrated
  /-- Old missing, new missing, url set: returns False after the
  old-database-missing warning (ambiguous state, left for review). -/
  | skippedOldMissing
  /-- Both exist: prints the naming-conflict manual-review message and
  returns False. -/
  | skippedNamingConflict
  /-- Dry-run branch: prints the would-migrate plan and returns True. -/
  | dryRunPlanned
  /-- Full migration path ran to the end and returned True. -/
  | completed
  /-- The `except` branch caught an exception: returns False. -/
  | failed (msg : String)
  deriving Repr, DecidableEq

/-- The boolean each outcome makes `migrate_project` return. -/
def Outcome.toBool : Outcome → Bool
  | Outcome.skippedNoDatabase => true
  | Outcome.alreadyMigrated => true
  | Outcome.skippedOldMissing => false
  | Outcome.skippedNamingConflict => false
  | Outcome.dryRunPlanned => true
  | Outcome.completed => true
  | Outcome.failed _ => false

/-- The remote world one run of `migrate_project` interacts with: GET
statuses for the old- and new-named databases, the create/token
responses, the data-plane environment and the contents of the old
database, the catalog UPDATE result (`Except.error` models a raised
psycopg2 exception, re-raised by `update_project_turso_credentials`),
and the DELETE status. -/
structure World where
  oldGetStatus : Nat
  newGetStatus : Nat
  createEnv : CreateEnv
  dataEnv : DataPlaneEnv
  srcTables : List SourceTable
  updateResult : Except String Unit
  deleteStatus : Nat

/-- The `try` block of `migrate_project` (the full migration path):
create the new database, copy data (its boolean result is only printed),
update the project record, delete the old database.  A raise from create
or update lands in `except` and yields `failed`; the copy and the delete
never raise. -/
def fullMigration (w : World) (p : Project) (old_db_name new_db_name : String) :
    Outcome × List Event :=
  match create_turso_db new_db_name w.createEnv with
  | Except.error e => (Outcome.failed e, [Event.createCall new_db_name])
  | Except.ok (new_url, new_token) =>
    let copied := copy_turso_data w.dataEnv w.srcTables
    let evs := [Event.createCall new_db_name,
                Event.copyCall (optStr p.tursoDbUrl) new_url copied.1]
    match w.updateResult with
    | Except.error e =>
        (Outcome.failed e, evs ++ [Event.updateCall p.id new_url new_token])
    | Except.ok _ =>
        (Outcome.completed,
         evs ++ [Event.updateCall p.id new_url new_token,
                 Event.deleteCall old_db_name (delete_turso_db w.deleteStatus)])

/-- Embedding of `migrate_project`: derive the two database names, check
existence of both (always executed, also under dry run), then branch in
source order.  Returns the outcome and the trace of remote calls. -/
def migrate_project (w : World) (p : Project) (dry_run : Bool) :
    Outcome × List Event :=
  let old_db_name := "liteshow-" ++ p.slug
  let new_db_name := "liteshow-" ++ p.id
  let old_exists := check_turso_db_exists w.oldGetStatus
  let new_exists := check_turso_db_exists w.newGetStatus
  let checks : List Event :=
    [Event.checkExists old_db_name, Event.checkExists new_db_name]
  if !old_exists then
    if !new_exists && pyFalsy p.tursoDbUrl then (Outcome.skippedNoDatabase, checks)
    else if new_exists then (Outcome.alreadyMigrated, checks)
    else (Outcome.skippedOldMissing, checks)
  else if new_exists then (Outcome.skippedNamingConflict, checks)
  else if dry_run then
    (Outcome.dryRunPlanned, checks ++ [Event.dryRunPlan old_db_name new_db_name])
  else
    let r := fullMigration w p old_db_name new_db_name
    (r.1, checks ++ r.2)

/-! ### Fleet driver (`main`) with the uncaught existence-check raise

The two `requests.get` calls of `check_turso_db_exists` run at the top of
`migrate_project`, before its `try` block, and `main`'s per-project loop
has no `try`/`except` of its own: a raised request exception (connection
error, timeout) propagates out of `migrate_project`, terminates the whole
run, leaves the remaining projects unprocessed and never reaches the
summary.  To model that path the GETs here answer with
`Except String Nat`: a status, or a raised exception. -/

/-- The remote world of one `migrate_project` call, with each
control-plane GET able to raise instead of answering a status. -/
structure WorldX where
  oldGet : Except String Nat
  newGet : Except String Nat
  createEnv : CreateEnv
  dataEnv : DataPlaneEnv
  srcTables : List SourceTable
  updateResult : Except String Unit
  deleteStatus : Nat

/-- The world seen by the rest of `migrate_project` once both GETs have
answered with statuses `so` and `sn`. -/
def WorldX.toWorld (wx : WorldX) (so sn : Nat) : World :=
  ⟨so, sn, wx.createEnv, wx.dataEnv, wx.srcTables, wx.updateResult, wx.deleteStatus⟩

/-- Embedding of `migrate_project` with the raising GETs: the old-name
check runs first and a raise there skips the new-name check; a raise from
either check escapes the function (its `try` only starts afterwards).
When both answer, the run is exactly `migrate_project` on the statuses. -/
def migrate_project_exc (wx : WorldX) (p : Project) (dry_run : Bool) :
    Except String (Outcome × List Event) :=
  match wx.oldGet with
  | Except.error e => Except.error e
  | Except.ok so =>
    match wx.newGet with
    | Except.error e => Except.error e
    | Except.ok sn => Except.ok (migrate_project (wx.toWorld so sn) p dry_run)

/-- The summary block `main` prints at the end of a run. -/
structure Summary where
  total : Nat
  success : Nat
  skip : Nat
  fail : Nat
  deriving Repr, DecidableEq

/-- The per-project loop of `main` with its counters
`(success_count, skip_count, fail_count)`: a True result increments
`success_count`, a False result `skip_count`, and `fail_count` is never
incremented; an exception escaping `migrate_project` aborts the loop
(the loop body has no `try`/`except`). -/
def runProjects (dry_run : Bool) :
    List (WorldX × Project) → Nat × Nat × Nat → Except String (Nat × Nat × Nat)
  | [], c => Except.ok c
  | wp :: rest, c =>
    match migrate_project_exc wp.1 wp.2 dry_run with
    | Except.error e => Except.error e
    | Except.ok r =>
      if (r.1).toBool then runProjects dry_run rest (c.1 + 1, c.2.1, c.2.2)
      else runProjects dry_run rest (c.1, c.2.1 + 1, c.2.2)

/-- Embedding of the fleet part of `main`: fetch the project list once,
loop, and print the summary with `Total projects` equal to the length of
the fetched list — unless an uncaught exception ended the run first, in
which case no summary is produced. -/
def main (inputs : List (WorldX × Project)) (dry_run : Bool) : Except String Summary :=
  match runProjects dry_run inputs (0, 0, 0) with
  | Except.error e => Except.error e
  | Except.ok c => Except.ok ⟨inputs.length, c.1, c.2.1, c.2.2⟩

/-! ### Sample fixtures used by witnesses and counterexamples -/

/-- A data-plane environment where every statement succeeds. -/
def envAllOk : DataPlaneEnv := ⟨true, fun _ => true, fun _ _ => true⟩

/-- A project row with a stored database url. -/
def sampleProject : Project :=
  ⟨"p1", "Proj One", "proj-one", some "old-host.turso.io", some "oldtok"⟩

/-- A project row whose `turso_db_url` is NULL. -/
def sampleProjectNoUrl : Project := ⟨"p1", "Proj One", "proj-one", none, none⟩

/-- A control plane that accepts both creation POSTs. -/
def createOkEnv : CreateEnv := ⟨Except.ok "new-host.turso.io", Except.ok "jwt1"⟩

/-- A world with given GET statuses for old and new names, everything
else succeeding and an empty source database. -/
def mkWorld (o n : Nat) : World :=
  ⟨o, n, createOkEnv, envAllOk, [], Except.ok (), 200⟩

/-- A three-table source database: `t1` with two rows, `t2` empty and the
`sqlite_sequence` bookkeeping table. -/
def sampleSrc : List SourceTable :=
  [⟨"t1", ["CREATE TABLE t1 (a, b)"],
     [[("a", "1"), ("b", "2")], [("a", "3"), ("b", "4")]]⟩,
   ⟨"sqlite_sequence", ["CREATE TABLE sqlite_sequence(name,seq)"], [[("name", "t1"), ("seq", "2")]]⟩,
   ⟨"t2", ["CREATE TABLE t2 (c)"], []⟩]

/-! ### Copy-fidelity lemmas -/

/-- The destination statements one well-formed source table produces: its
CREATE statement verbatim, then one INSERT per source row whose bound
values are the row values in source column order. -/
def destTableEvents (t : SourceTable) : List DbEvent :=
  DbEvent.exec (t.schemaRows.headD "") ::
    t.rows.map (fun r => DbEvent.insert (insertSqlFor t.name (tableColumns t)) (r.map Prod.snd))

theorem map_rowGet_self (r : Row) (h : (r.map Prod.fst).Nodup) :
    (r.map Prod.fst).map (rowGet r) = r.map Prod.snd := by
  induction r with
  | nil => rfl
  | cons p t ih =>
    obtain ⟨c, v⟩ := p
    simp only [List.map_cons, List.nodup_cons] at h ⊢
    have hhead : rowGet ((c, v) :: t) c = v := by
      simp [rowGet, List.find?_cons_of_pos]
    have htail : (t.map Prod.fst).map (rowGet ((c, v) :: t)) =
        (t.map Prod.fst).map (rowGet t) := by
      apply List.map_congr_left
      intro a ha
      have hac : (c == a) = false := by
        refine beq_false_of_ne (fun hh => h.1 ?_)
        exact hh ▸ ha
      simp [rowGet, List.find?_cons_of_neg, hac]
    rw [hhead, htail, ih h.2]

theorem insertRowsFrom_ok (env : DataPlaneEnv) (table sql : String)
    (cols : List String) (rows : List Row) (i : Nat)
    (h : ∀ j, env.insertOk table j = true) :
    insertRowsFrom env table sql cols rows i =
      (rows.map (fun r => DbEvent.insert sql (cols.map (rowGet r))), true) := by
  induction rows generalizing i with
  | nil => rfl
  | cons r rs ih => simp [insertRowsFrom, h, ih]

theorem copyTable_ok (env : DataPlaneEnv) (t : SourceTable)
    (hc : ∀ s, env.createOk s = true)
    (hi : ∀ tb j, env.insertOk tb j = true) (hwf : wfTable t) :
    copyTable env t = (destTableEvents t, true) := by
  obtain ⟨hs, hrows, hnd⟩ := hwf
  obtain ⟨nm, srows, rows⟩ := t
  cases srows with
  | nil => exact absurd rfl hs
  | cons s0 srest =>
    cases rows with
    | nil => simp [copyTable, destTableEvents, hc]
    | cons r0 rrest =>
      simp only [copyTable, hc, if_true, destTableEvents, List.headD_cons]
      rw [insertRowsFrom_ok _ _ _ _ _ _ (hi _)]
      simp only [Prod.mk.injEq, and_true, List.cons.injEq, true_and]
      apply List.map_congr_left
      intro r hr
      have hk : r.map Prod.fst = tableColumns ⟨nm, s0 :: srest, r0 :: rrest⟩ :=
        hrows r hr
      have hnd' : (r.map Prod.fst).Nodup := hk ▸ hnd
      simp only [DbEvent.insert.injEq, true_and]
      rw [← hk, map_rowGet_self r hnd']

theorem copyTables_ok (env : DataPlaneEnv) (ts : List SourceTable)
    (hc : ∀ s, env.createOk s = true)
    (hi : ∀ tb j, env.insertOk tb j = true) (hwf : ∀ t ∈ ts, wfTable t) :
    copyTables env ts = ((ts.map destTableEvents).flatten, true) := by
  induction ts with
  | nil => rfl
  | cons t rest ih =>
    have ht := copyTable_ok env t hc hi (hwf t (List.mem_cons_self t rest))
    have hrest := ih (fun u hu => hwf u (List.mem_cons_of_mem t hu))
    simp [copyTables, ht, hrest]

/-- A data-plane environment where every insert raises. -/
def envNoInsert : DataPlaneEnv := ⟨true, fun _ => true, fun _ _ => false⟩

/-- C2: when the copy succeeds with a working data plane, the destination
receives, for every source table except the `sqlite_sequence` bookkeeping
table and in listing order, its CREATE statement verbatim followed by one
insert per source row whose values are the row's values in the column
order the source returns; a zero-row table contributes its schema
statement and no inserts, and `copy_turso_data` returns success. -/
theorem copy_fidelity (env : DataPlaneEnv) (src : List SourceTable)
    (hlib : env.hasLibsql = true)
    (hc : ∀ s, env.createOk s = true)
    (hi : ∀ tb j, env.insertOk tb j = true)
    (hwf : ∀ t ∈ src, wfTable t) :
    copy_turso_data env src =
      (((src.filter (fun t => t.name ≠ "sqlite_sequence")).map destTableEvents).flatten,
        true) := by
  have h := copyTables_ok env (src.filter (fun t => t.name ≠ "sqlite_sequence")) hc hi
    (fun t ht => hwf t (List.mem_of_mem_filter ht))
  simp only [copy_turso_data, hlib, if_true]
  exact h

/-- Witness for `copy_fidelity` on a concrete source database with a
two-row table, an empty table and a bookkeeping table. -/
theorem copy_fidelity_witness :
    copy_turso_data envAllOk sampleSrc =
      (((sampleSrc.filter (fun t => t.name ≠ "sqlite_sequence")).map destTableEvents).flatten,
        true) :=
  copy_fidelity envAllOk sampleSrc rfl (fun _ => rfl) (fun _ _ => rfl) (by decide)

/-- C5 counterexample: a source table whose schema query returns no rows
(the creation statement cannot be retrieved) does not make the copy fail;
the table is silently dropped and `copy_turso_data` reports success. -/
theorem copy_missing_schema_counterexample :
    copy_turso_data envAllOk [⟨"t1", [], [[("a", "1")]]⟩] = ([], true) := by
  decide

/-- C5 as amended: a table whose creation statement cannot be retrieved
is silently skipped with no error; a table whose copy raises aborts the
remaining tables of the session while keeping the statements already
applied (no rollback); and a failing insert stops that table at the
failing row with a failure result. -/
theorem copy_error_semantics :
    (∀ (env : DataPlaneEnv) (t : SourceTable), t.schemaRows = [] →
      copyTable env t = ([], true)) ∧
    (∀ (env : DataPlaneEnv) (t : SourceTable) (ts : List SourceTable),
      (copyTable env t).2 = false →
      copyTables env (t :: ts) = ((copyTable env t).1, false)) ∧
    (∀ (env : DataPlaneEnv) (tbl sql : String) (cols : List String) (r : Row)
      (rs : List Row) (i : Nat), env.insertOk tbl i = false →
      insertRowsFrom env tbl sql cols (r :: rs) i = ([], false)) := by
  refine ⟨?_, ?_, ?_⟩
  · intro env t h
    obtain ⟨nm, srows, rows⟩ := t
    simp only at h
    subst h
    rfl
  · intro env t ts h
    simp [copyTables, h]
  · intro env tbl sql cols r rs i h
    simp [insertRowsFrom, h]

/-- Witness for `copy_error_semantics` at concrete tables and a concrete
failing environment. -/
theorem copy_error_semantics_witness :
    copyTable envAllOk ⟨"t0", [], []⟩ = ([], true) ∧
    copyTables envNoInsert
        [⟨"t1", ["CREATE TABLE t1 (a)"], [[("a", "1")]]⟩,
         ⟨"t2", ["CREATE TABLE t2 (b)"], []⟩] =
      ((copyTable envNoInsert ⟨"t1", ["CREATE TABLE t1 (a)"], [[("a", "1")]]⟩).1, false) ∧
    insertRowsFrom envNoInsert "t1" "sql" ["a"] [[("a", "1")]] 0 = ([], false) :=
  ⟨copy_error_semantics.1 envAllOk ⟨"t0", [], []⟩ rfl,
   copy_error_semantics.2.1 envNoInsert ⟨"t1", ["CREATE TABLE t1 (a)"], [[("a", "1")]]⟩
     [⟨"t2", ["CREATE TABLE t2 (b)"], []⟩] rfl,
   copy_error_semantics.2.2 envNoInsert "t1" "sql" ["a"] [("a", "1")] [] 0 rfl⟩

/-! ### Planner/Executor lemmas -/

/-- The full migration path ends in `completed` or in `failed`: create
and catalog update are the only raising steps; copy and delete never
raise. -/
theorem fullMigration_outcome (w : World) (p : Project) (o n : String) :
    (fullMigration w p o n).1 = Outcome.completed ∨
      ∃ e, (fullMigration w p o n).1 = Outcome.failed e := by
  unfold fullMigration
  cases create_turso_db n w.createEnv with
  | error e => exact Or.inr ⟨e, rfl⟩
  | ok pr =>
    obtain ⟨u, tk⟩ := pr
    cases w.updateResult with
    | error e => exact Or.inr ⟨e, rfl⟩
    | ok x => exact Or.inl rfl

/-- C1: with dry run off, the quadrant (old exists, new exists) computed
from the two control-plane checks selects exactly the action of the
decision table: (false, false) is skipped — as "no database" when the
stored url is unset, otherwise as the ambiguous old-missing case left for
review; (false, true) is `alreadyMigrated`; (true, true) is the naming
conflict skip; (true, false) runs the full migration path, whose outcome
is `completed` or `failed`; no other branch exists. -/
theorem quadrant_decision_table (w : World) (p : Project) :
    (check_turso_db_exists w.oldGetStatus = false →
      check_turso_db_exists w.newGetStatus = false →
      pyFalsy p.tursoDbUrl = true →
      (migrate_project w p false).1 = Outcome.skippedNoDatabase) ∧
    (check_turso_db_exists w.oldGetStatus = false →
      check_turso_db_exists w.newGetStatus = false →
      pyFalsy p.tursoDbUrl = false →
      (migrate_project w p false).1 = Outcome.skippedOldMissing) ∧
    (check_turso_db_exists w.oldGetStatus = false →
      check_turso_db_exists w.newGetStatus = true →
      (migrate_project w p false).1 = Outcome.alreadyMigrated ∧
      (migrate_project w p false).2.all (fun e => !e.isMutation) = true) ∧
    (check_turso_db_exists w.oldGetStatus = true →
      check_turso_db_exists w.newGetStatus = true →
      (migrate_project w p false).1 = Outcome.skippedNamingConflict) ∧
    (check_turso_db_exists w.oldGetStatus = true →
      check_turso_db_exists w.newGetStatus = false →
      (migrate_project w p false).1 =
        (fullMigration w p ("liteshow-" ++ p.slug) ("liteshow-" ++ p.id)).1 ∧
      ((migrate_project w p false).1 = Outcome.completed ∨
        ∃ e, (migrate_project w p false).1 = Outcome.failed e)) := by
  refine ⟨?_, ?_, ?_, ?_, ?_⟩
  · intro h1 h2 h3
    simp [migrate_project, h1, h2, h3]
  · intro h1 h2 h3
    simp [migrate_project, h1, h2, h3]
  · intro h1 h2
    simp [migrate_project, h1, h2, Event.isMutation]
  · intro h1 h2
    simp [migrate_project, h1, h2]
  · intro h1 h2
    constructor
    · simp [migrate_project, h1, h2]
    · have h := fullMigration_outcome w p ("liteshow-" ++ p.slug) ("liteshow-" ++ p.id)
      have hm : (migrate_project w p false).1 =
          (fullMigration w p ("liteshow-" ++ p.slug) ("liteshow-" ++ p.id)).1 := by
        simp [migrate_project, h1, h2]
      rw [hm]
      exact h

/-- Witness for `quadrant_decision_table`: a tenant with neither database
and a NULL stored url is skipped as having no database. -/
theorem quadrant_decision_table_witness :
    (migrate_project (mkWorld 404 404) sampleProjectNoUrl false).1 =
      Outcome.skippedNoDatabase :=
  (quadrant_decision_table (mkWorld 404 404) sampleProjectNoUrl).1 rfl rfl rfl

/-- C3: under dry run the trace of `migrate_project` contains no mutating
call on any branch — only the two read-only existence checks (always
present) and, exactly on the full-migration quadrant, the printed
would-migrate plan. -/
theorem dry_run_purity (w : World) (p : Project) :
    ((migrate_project w p true).2.all (fun e => !e.isMutation) = true) ∧
    (Event.checkExists ("liteshow-" ++ p.slug) ∈ (migrate_project w p true).2 ∧
      Event.checkExists ("liteshow-" ++ p.id) ∈ (migrate_project w p true).2) ∧
    (check_turso_db_exists w.oldGetStatus = true →
      check_turso_db_exists w.newGetStatus = false →
      Event.dryRunPlan ("liteshow-" ++ p.slug) ("liteshow-" ++ p.id) ∈
        (migrate_project w p true).2) := by
  cases h1 : check_turso_db_exists w.oldGetStatus <;>
    cases h2 : check_turso_db_exists w.newGetStatus <;>
      cases h3 : pyFalsy p.tursoDbUrl <;>
        simp [migrate_project, h1, h2, h3, Event.isMutation]

/-- Witness for `dry_run_purity`: with old present and new absent, the
dry run prints the would-migrate plan for the tenant. -/
theorem dry_run_purity_witness :
    Event.dryRunPlan ("liteshow-" ++ sampleProject.slug) ("liteshow-" ++ sampleProject.id) ∈
      (migrate_project (mkWorld 200 404) sampleProject true).2 :=
  (dry_run_purity (mkWorld 200 404) sampleProject).2.2 rfl rfl

/-- C4: when both the old-named and the new-named databases exist, the
outcome is the naming-conflict skip and the trace is exactly the two
read-only existence checks — no create, copy, update or delete is issued
and neither database is deleted — for every stored url value and in both
run modes. -/
theorem naming_conflict_safety (w : World) (p : Project) (dry : Bool)
    (h1 : check_turso_db_exists w.oldGetStatus = true)
    (h2 : check_turso_db_exists w.newGetStatus = true) :
    (migrate_project w p dry).1 = Outcome.skippedNamingConflict ∧
    (migrate_project w p dry).2 =
      [Event.checkExists ("liteshow-" ++ p.slug),
       Event.checkExists ("liteshow-" ++ p.id)] := by
  simp [migrate_project, h1, h2]

/-- Witness for `naming_conflict_safety` at a concrete conflicted world. -/
theorem naming_conflict_safety_witness :
    (migrate_project (mkWorld 200 200) sampleProject false).1 =
      Outcome.skippedNamingConflict :=
  (naming_conflict_safety (mkWorld 200 200) sampleProject false rfl rfl).1

/-- C8: after a run that reached `completed`, a rerun against a control
plane that now reports the old name absent and the new name present
returns `alreadyMigrated` and issues only the two read-only existence
checks — zero mutations. -/
theorem rerun_already_migrated (w1 w2 : World) (p : Project) (dry : Bool)
    (_hprev : (migrate_project w1 p false).1 = Outcome.completed)
    (h1 : check_turso_db_exists w2.oldGetStatus = false)
    (h2 : check_turso_db_exists w2.newGetStatus = true) :
    (migrate_project w2 p dry).1 = Outcome.alreadyMigrated ∧
    (migrate_project w2 p dry).2 =
      [Event.checkExists ("liteshow-" ++ p.slug),
       Event.checkExists ("liteshow-" ++ p.id)] := by
  simp [migrate_project, h1, h2]

/-- Witness for `rerun_already_migrated`: a world where the first run
completes, then a rerun with old deleted and new present. -/
theorem rerun_already_migrated_witness :
    (migrate_project (mkWorld 404 200) sampleProject false).1 =
      Outcome.alreadyMigrated :=
  (rerun_already_migrated (mkWorld 200 404) (mkWorld 404 200) sampleProject false
    (by decide) rfl rfl).1

/-- C6: on the full migration path, when create and the catalog update
succeed but the data copy fails (or is skipped for a missing libsql
client), the unit still updates the tenant record with the new endpoint
and credential and still deletes the old database, and the outcome is
`completed` — a copy failure never aborts the unit. -/
theorem copy_failure_continues (w : World) (p : Project) (u tk : String)
    (h1 : check_turso_db_exists w.oldGetStatus = true)
    (h2 : check_turso_db_exists w.newGetStatus = false)
    (hcr : w.createEnv.createResp = Except.ok u)
    (htk : w.createEnv.tokenResp = Except.ok tk)
    (_hcopy : (copy_turso_data w.dataEnv w.srcTables).2 = false)
    (hupd : w.updateResult = Except.ok ()) :
    migrate_project w p false =
      (Outcome.completed,
        [Event.checkExists ("liteshow-" ++ p.slug),
         Event.checkExists ("liteshow-" ++ p.id),
         Event.createCall ("liteshow-" ++ p.id),
         Event.copyCall (optStr p.tursoDbUrl) u (copy_turso_data w.dataEnv w.srcTables).1,
         Event.updateCall p.id u tk,
         Event.deleteCall ("liteshow-" ++ p.slug) (delete_turso_db w.deleteStatus)]) := by
  have hc : create_turso_db ("liteshow-" ++ p.id) w.createEnv = Except.ok (u, tk) := by
    simp [create_turso_db, hcr, htk]
  simp [migrate_project, h1, h2, fullMigration, hc, hupd]

/-- A world on the full-migration quadrant whose data plane has no libsql
client, so the copy is skipped and returns failure. -/
def worldNoLibsql : World :=
  ⟨200, 404, createOkEnv, ⟨false, fun _ => true, fun _ _ => true⟩, [], Except.ok (), 200⟩

/-- Witness for `copy_failure_continues`: libsql missing, copy skipped,
record still updated and old database still deleted. -/
theorem copy_failure_continues_witness :
    migrate_project worldNoLibsql sampleProject false =
      (Outcome.completed,
        [Event.checkExists ("liteshow-" ++ sampleProject.slug),
         Event.checkExists ("liteshow-" ++ sampleProject.id),
         Event.createCall ("liteshow-" ++ sampleProject.id),
         Event.copyCall (optStr sampleProject.tursoDbUrl) "new-host.turso.io"
           (copy_turso_data worldNoLibsql.dataEnv worldNoLibsql.srcTables).1,
         Event.updateCall sampleProject.id "new-host.turso.io" "jwt1",
         Event.deleteCall ("liteshow-" ++ sampleProject.slug)
           (delete_turso_db worldNoLibsql.deleteStatus)]) :=
  copy_failure_continues worldNoLibsql sampleProject "new-host.turso.io" "jwt1"
    rfl rfl rfl rfl rfl rfl

/-- A full-path world whose DELETE of the old database returns 500. -/
def worldDeleteFails : World := ⟨200, 404, createOkEnv, envAllOk, [], Except.ok (), 500⟩

/-- C7 counterexample: with the catalog update succeeding and the DELETE
of the old database answering 500 (a non-404 failure), the unit is
reported `completed` — the script only prints a warning — not `Failed` as
the claim states. -/
theorem delete_failure_outcome_counterexample :
    (migrate_project worldDeleteFails sampleProject false).1 = Outcome.completed ∧
    Outcome.toBool (migrate_project worldDeleteFails sampleProject false).1 = true ∧
    Event.deleteCall ("liteshow-" ++ sampleProject.slug) true ∈
      (migrate_project worldDeleteFails sampleProject false).2 := by
  decide

/-- C7 as amended: a 404 (already absent) DELETE answer is success with
no warning, as is any 2xx/3xx answer; a failure of the catalog update in
step 4 is reported `failed` and the old database is never deleted, so old
and new both still exist for the next run; but a non-404 DELETE failure
in step 5 only prints a warning — the delete is attempted, flagged
`warned`, and the unit still reports `completed`. -/
theorem step4_step5_failure_semantics :
    (delete_turso_db 404 = false) ∧
    (∀ s, s < 400 → delete_turso_db s = false) ∧
    (∀ (w : World) (p : Project) (u tk e : String),
      check_turso_db_exists w.oldGetStatus = true →
      check_turso_db_exists w.newGetStatus = false →
      w.createEnv.createResp = Except.ok u →
      w.createEnv.tokenResp = Except.ok tk →
      w.updateResult = Except.error e →
      (migrate_project w p false).1 = Outcome.failed e ∧
      ∀ d b, Event.deleteCall d b ∉ (migrate_project w p false).2) ∧
    (∀ (w : World) (p : Project) (u tk : String),
      check_turso_db_exists w.oldGetStatus = true →
      check_turso_db_exists w.newGetStatus = false →
      w.createEnv.createResp = Except.ok u →
      w.createEnv.tokenResp = Except.ok tk →
      w.updateResult = Except.ok () →
      400 ≤ w.deleteStatus → w.deleteStatus ≠ 404 →
      (migrate_project w p false).1 = Outcome.completed ∧
      Event.deleteCall ("liteshow-" ++ p.slug) true ∈ (migrate_project w p false).2) := by
  refine ⟨by decide, ?_, ?_, ?_⟩
  · intro s hs
    simp [delete_turso_db, hs]
  · intro w p u tk e h1 h2 hcr htk hupd
    have hc : create_turso_db ("liteshow-" ++ p.id) w.createEnv = Except.ok (u, tk) := by
      simp [create_turso_db, hcr, htk]
    constructor
    · simp [migrate_project, h1, h2, fullMigration, hc, hupd]
    · intro d b
      simp [migrate_project, h1, h2, fullMigration, hc, hupd]
  · intro w p u tk h1 h2 hcr htk hupd hge hne
    have hc : create_turso_db ("liteshow-" ++ p.id) w.createEnv = Except.ok (u, tk) := by
      simp [create_turso_db, hcr, htk]
    have hdel : delete_turso_db w.deleteStatus = true := by
      simp [delete_turso_db, Nat.not_lt.mpr hge, hne]
    constructor
    · simp [migrate_project, h1, h2, fullMigration, hc, hupd]
    · simp [migrate_project, h1, h2, fullMigration, hc, hupd, hdel]

/-- A full-path world whose catalog UPDATE raises. -/
def worldUpdateFails : World :=
  ⟨200, 404, createOkEnv, envAllOk, [], Except.error "connection reset", 500⟩

/-- Witness for `step4_step5_failure_semantics` at concrete worlds: a
failing step 4 yields `failed` with no delete call; a 500 DELETE answer
still yields `completed` with the warned delete call. -/
theorem step4_step5_failure_semantics_witness :
    delete_turso_db 300 = false ∧
    (migrate_project worldUpdateFails sampleProject false).1 =
      Outcome.failed "connection reset" ∧
    Event.deleteCall "liteshow-proj-one" true ∉
      (migrate_project worldUpdateFails sampleProject false).2 ∧
    (migrate_project worldDeleteFails sampleProject false).1 = Outcome.completed :=
  ⟨step4_step5_failure_semantics.2.1 300 (by decide),
   (step4_step5_failure_semantics.2.2.1 worldUpdateFails sampleProject
      "new-host.turso.io" "jwt1" "connection reset" rfl rfl rfl rfl rfl).1,
   (step4_step5_failure_semantics.2.2.1 worldUpdateFails sampleProject
      "new-host.turso.io" "jwt1" "connection reset" rfl rfl rfl rfl rfl).2
      "liteshow-proj-one" true,
   (step4_step5_failure_semantics.2.2.2 worldDeleteFails sampleProject
      "new-host.turso.io" "jwt1" rfl rfl rfl rfl rfl (by decide) (by decide)).1⟩

/-- A world whose old-name existence GET raises a connection error. -/
def wxBadCheck : WorldX :=
  ⟨Except.error "requests.exceptions.ConnectionError", Except.ok 200,
   createOkEnv, envAllOk, [], Except.ok (), 200⟩

/-- A world on the full-migration quadrant with both GETs answering. -/
def wxGood : WorldX :=
  ⟨Except.ok 200, Except.ok 404, createOkEnv, envAllOk, [], Except.ok (), 200⟩

/-- C9 counterexample: a fleet of two tenants where the first tenant's
old-name existence check raises.  The run terminates with the propagated
exception — no summary, the second tenant never processed — although that
second tenant alone runs to a summary with total 1.  This contradicts the
claim that every per-tenant failure is caught below the fleet driver. -/
theorem fleet_abort_counterexample :
    main [(wxBadCheck, sampleProjectNoUrl), (wxGood, sampleProject)] false =
      Except.error "requests.exceptions.ConnectionError" ∧
    main [(wxGood, sampleProject)] false =
      Except.ok ⟨1, 1, 0, 0⟩ := by
  constructor <;> rfl

/-- Helper for the amended fleet claim: when every remaining tenant's two
existence GETs answer with statuses, the loop processes all of them, each
boolean outcome bumps exactly one counter, and the counter sum grows by
the number of tenants. -/
theorem runProjects_all_ok (dry : Bool) (inputs : List (WorldX × Project)) :
    ∀ c : Nat × Nat × Nat,
    (∀ wp ∈ inputs, (∃ s, wp.1.oldGet = Except.ok s) ∧ ∃ s, wp.1.newGet = Except.ok s) →
    ∃ c2, runProjects dry inputs c = Except.ok c2 ∧
      c2.1 + c2.2.1 + c2.2.2 = c.1 + c.2.1 + c.2.2 + inputs.length := by
  induction inputs with
  | nil =>
    intro c _
    exact ⟨c, rfl, by simp⟩
  | cons wp rest ih =>
    intro c h
    obtain ⟨⟨so, hso⟩, sn, hsn⟩ := h wp (List.mem_cons_self wp rest)
    have hrest := fun u hu => h u (List.mem_cons_of_mem wp hu)
    have hmx : migrate_project_exc wp.1 wp.2 dry =
        Except.ok (migrate_project (wp.1.toWorld so sn) wp.2 dry) := by
      simp [migrate_project_exc, hso, hsn]
    cases hb : ((migrate_project (wp.1.toWorld so sn) wp.2 dry).1).toBool with
    | true =>
      obtain ⟨c2, hc2, hsum⟩ := ih (c.1 + 1, c.2.1, c.2.2) hrest
      refine ⟨c2, ?_, ?_⟩
      · simp [runProjects, hmx, hb, hc2]
      · simp only [List.length_cons] at hsum ⊢
        omega
    | false =>
      obtain ⟨c2, hc2, hsum⟩ := ih (c.1, c.2.1 + 1, c.2.2) hrest
      refine ⟨c2, ?_, ?_⟩
      · simp [runProjects, hmx, hb, hc2]
      · simp only [List.length_cons] at hsum ⊢
        omega

/-- C9 as amended: when every existence check answers with a status, the
fleet run reaches the summary, every fetched tenant is processed and
counted exactly once, and the reported total equals the fetched count
(success + skip + fail = total).  But an exception raised by either
existence check of a tenant — the only calls outside `migrate_project`'s
`try` — is caught nowhere below the fleet driver: it terminates the run
at that tenant, skipping all subsequent tenants and the summary.
Failures raised inside the `try` stay converted to a counted boolean
outcome, as `migrate_project` embeds. -/
theorem fleet_error_semantics :
    (∀ (inputs : List (WorldX × Project)) (dry : Bool),
      (∀ wp ∈ inputs,
        (∃ s, wp.1.oldGet = Except.ok s) ∧ ∃ s, wp.1.newGet = Except.ok s) →
      ∃ sm : Summary, main inputs dry = Except.ok sm ∧
        sm.total = inputs.length ∧
        sm.success + sm.skip + sm.fail = inputs.length) ∧
    (∀ (wx : WorldX) (p : Project) (rest : List (WorldX × Project)) (dry : Bool)
      (e : String), wx.oldGet = Except.error e →
      main ((wx, p) :: rest) dry = Except.error e) ∧
    (∀ (wx : WorldX) (p : Project) (rest : List (WorldX × Project)) (dry : Bool)
      (e : String) (so : Nat), wx.oldGet = Except.ok so →
      wx.newGet = Except.error e →
      main ((wx, p) :: rest) dry = Except.error e) ∧
    (∀ (wx : WorldX) (p : Project) (dry : Bool) (so sn : Nat),
      wx.oldGet = Except.ok so → wx.newGet = Except.ok sn →
      migrate_project_exc wx p dry =
        Except.ok (migrate_project (wx.toWorld so sn) p dry)) := by
  refine ⟨?_, ?_, ?_, ?_⟩
  · intro inputs dry h
    obtain ⟨c2, hc2, hsum⟩ := runProjects_all_ok dry inputs (0, 0, 0) h
    refine ⟨⟨inputs.length, c2.1, c2.2.1, c2.2.2⟩, ?_, rfl, ?_⟩
    · simp only [main]
      rw [hc2]
    · simpa using hsum
  · intro wx p rest dry e h
    simp [main, runProjects, migrate_project_exc, h]
  · intro wx p rest dry e so h1 h2
    simp [main, runProjects, migrate_project_exc, h1, h2]
  · intro wx p dry so sn h1 h2
    simp [migrate_project_exc, h1, h2]

/-- Witness for `fleet_error_semantics` at concrete fleets: a one-tenant
all-answering fleet reaches a summary with total 1 and sum 1; a fleet
led by a raising check aborts with that exception; and an answering
tenant's run is `migrate_project` on the statuses. -/
theorem fleet_error_semantics_witness :
    (∃ sm : Summary, main [(wxGood, sampleProject)] false = Except.ok sm ∧
      sm.total = 1 ∧ sm.success + sm.skip + sm.fail = 1) ∧
    main [(wxBadCheck, sampleProject)] false =
      Except.error "requests.exceptions.ConnectionError" ∧
    migrate_project_exc wxGood sampleProject false =
      Except.ok (migrate_project (wxGood.toWorld 200 404) sampleProject false) :=
  ⟨by
    have h := fleet_error_semantics.1 [(wxGood, sampleProject)] false
      (by
        intro wp hwp
        rw [List.mem_singleton] at hwp
        subst hwp
        exact ⟨⟨200, rfl⟩, 404, rfl⟩)
    simpa using h,
   fleet_error_semantics.2.1 wxBadCheck sampleProject [] false
     "requests.exceptions.ConnectionError" rfl,
   fleet_error_semantics.2.2.2 wxGood sampleProject false 200 404 rfl rfl⟩

/-- C10: the existence check classifies a database as existing exactly
when the control plane answers HTTP 200 — any other status, including
auth failures and server errors, reads as absent — and `migrate_project`
consumes the two GET statuses only through this classification: worlds
whose statuses classify equally behave identically. -/
theorem existence_check_classification :
    (∀ s, check_turso_db_exists s = true ↔ s = 200) ∧
    (∀ (w : World) (p : Project) (dry : Bool) (a b : Nat),
      check_turso_db_exists a = check_turso_db_exists w.oldGetStatus →
      check_turso_db_exists b = check_turso_db_exists w.newGetStatus →
      migrate_project { w with oldGetStatus := a, newGetStatus := b } p dry =
        migrate_project w p dry) := by
  constructor
  · intro s
    simp [check_turso_db_exists]
  · intro w p dry a b h1 h2
    cases hx : check_turso_db_exists w.oldGetStatus <;>
      cases hy : check_turso_db_exists w.newGetStatus <;>
        simp [migrate_project, hx, hy, h1.trans hx, h2.trans hy, fullMigration]

/-- Witness for `existence_check_classification`: 401 and 500 classify
like 404 (absent), so replacing the statuses leaves the run unchanged. -/
theorem existence_check_classification_witness :
    check_turso_db_exists 200 = true ∧
    migrate_project { mkWorld 500 200 with oldGetStatus := 401, newGetStatus := 200 }
        sampleProject false =
      migrate_project (mkWorld 500 200) sampleProject false :=
  ⟨(existence_check_classification.1 200).mpr rfl,
   existence_check_classification.2 (mkWorld 500 200) sampleProject false 401 200 rfl rfl⟩

end Liteshow
